import Mathlib

/-!
Formal model of the PayFlow core (Go sources under internal/ and the
unnamed parts) as a shallow embedding in Lean 4, together with theorems
settling the behavioural claims about the balance kernel, the transaction
engine, the event store writer, the worker pool and the circuit breaker.

Monetary amounts are `float64` in Go carrying fixed-precision decimals
with two fractional digits (spec §3); they are modelled exactly as
integers in minor units, so additions, subtractions and comparisons in
the model are the ideal-arithmetic reading of the code.
-/

namespace Payflow

/-- Monetary amount (Go `float64` holding a 2-fractional-digit decimal),
modelled exactly as an integer count of minor units. -/
abbrev Amount := ℤ

/-- The error values the modelled code can return.  The first seven mirror
the closed set in internal/domain/errors.go; `updateRowNotFound` is the
plain `fmt.Errorf("bakiye güncellenemedi, kullanıcı bulunamadı: %d", …)`
produced by BalanceRepository.Update when no row was affected
(balance_repository.go:110-113); `overloaded` is the plain
`fmt.Errorf("işlem şu anda işlenemiyor, …")` returned on a rejected pool
submission; `storage` is an injected storage-layer fault (used by the
fault-injecting test double below, as the specification's scenario 5
prescribes).  Note that the Go error set contains NO CompensationFailed
value. -/
inductive Err where
  | concurrentModification
  | insufficientFunds
  | invalidAmount
  | invalidTransaction
  | userNotFound
  | transactionNotFound
  | balanceNotFound
  | updateRowNotFound
  | overloaded
  | storage
  | circuitBreakerOpen
  | tooManyRequests
deriving Repr, DecidableEq

/-- internal/domain/balance.go: `Balance` (the `last_updated_at` timestamp
carries no behavioural content for the claims and is omitted). -/
structure Balance where
  userId : Int
  amount : Amount
deriving Repr, DecidableEq

/-- The balances table: a list of rows (user_id is unique in the schema). -/
abbrev BalanceDB := List Balance

/-- balance_repository.go:26 `FindByUserID`: `SELECT … WHERE user_id = $1`;
`sql.ErrNoRows` is mapped to `(nil, nil)`, i.e. `none`. -/
def findByUserID (db : BalanceDB) (uid : Int) : Option Balance :=
  db.find? (fun b => b.userId == uid)

/-- balance_repository.go:80 `Update`: `UPDATE balances SET amount = $1 …
WHERE user_id = $3`; when zero rows are affected it fails with the plain
"bakiye güncellenemedi, kullanıcı bulunamadı" error and the table is
unchanged.  It never inserts a row. -/
def repoUpdate (db : BalanceDB) (b : Balance) : Except Err BalanceDB :=
  if db.any (fun x => x.userId == b.userId) then
    .ok (db.map (fun x => if x.userId == b.userId then b else x))
  else
    .error .updateRowNotFound

/-- internal/domain (part_008): `BalanceHistory` row. -/
structure BalanceHistory where
  userId : Int
  amount : Amount
  previousAmount : Amount
  transactionId : Int
  operation : String
deriving Repr, DecidableEq

/-- internal/domain: `AuditLog` row (timestamps omitted). -/
structure AuditLog where
  entityType : String
  entityId : Int
  action : String
  details : String
deriving Repr, DecidableEq

/-- internal/domain (part_006): event types. -/
inductive EventType where
  | balanceUpdated
  | transactionCreated
  | transactionCompleted
  | transactionFailed
deriving Repr, DecidableEq

/-- internal/domain: `Event` row (`event_data`, timestamps and metadata are
opaque payloads and are omitted; `version` is the Go `int`). -/
structure Event where
  aggregateType : String
  aggregateId : String
  eventType : EventType
  version : Int
deriving Repr, DecidableEq

/-- event_store_repository.go:197 `GetLastVersion`:
`SELECT COALESCE(MAX(version), 0) … WHERE aggregate_type = $1 AND
aggregate_id = $2`. -/
def getLastVersion (store : List Event) (aggT aggId : String) : Int :=
  (store.filterMap
    (fun e => if e.aggregateType == aggT && e.aggregateId == aggId
              then some e.version else none)).foldl max 0

/-- EventStoreService.SaveEvent (part_002:22-50): reads the partition's
last version; if `event.version ≠ last_version + 1` it fails with
`ErrConcurrentModification` and inserts nothing; otherwise it inserts the
row. -/
def SaveEvent (store : List Event) (e : Event) : Except Err (List Event) :=
  let lastVersion := getLastVersion store e.aggregateType e.aggregateId
  if e.version != lastVersion + 1 then
    .error .concurrentModification
  else
    .ok (store ++ [e])

/-- balance_service.go:41-62 `saveEvent`: one `GetLastVersion` read
followed by one `SaveEvent` append at `lastVersion + 1`.  The two calls
are separate operations on the shared store, so a concurrent writer can
append in between: `readStore` is the snapshot seen by `GetLastVersion`
and `saveStore` the snapshot seen by `SaveEvent` (sequential execution is
the special case `readStore = saveStore`).  The function makes exactly
one append attempt; the source contains no retry. -/
def balanceSaveEvent (readStore saveStore : List Event) (uid : Int)
    (et : EventType) : Except Err (List Event) :=
  let lastVersion := getLastVersion readStore "balance" (toString uid)
  SaveEvent saveStore
    { aggregateType := "balance", aggregateId := toString uid,
      eventType := et, version := lastVersion + 1 }

/-- Modelled from the spec: the event-write discipline the specification
describes in §4.10 / §9 but which is absent from src (the sources call
`SaveEvent` once with no retry): "Retry the append after re-reading
`last_version` (single retry); if still conflicting, surface
ConcurrentModification".  Used only to exhibit the divergence between the
specified and the implemented writer. -/
def saveEventSpecSingleRetry (readStore saveStore : List Event) (uid : Int)
    (et : EventType) : Except Err (List Event) :=
  match balanceSaveEvent readStore saveStore uid et with
  | .error .concurrentModification => balanceSaveEvent saveStore saveStore uid et
  | r => r

/-- The state the balance kernel touches: the balances table, the
balance_history table, the audit_logs table and the event store. -/
structure KernelState where
  balances : BalanceDB
  history : List BalanceHistory
  audit : List AuditLog
  events : List Event
deriving Repr, DecidableEq

/-- balance_service.go:81-141 `DepositAtomically` (the variant the claims
cite).  Control flow, in source order:
  * `FindByUserID` (line 89); on a missing row a fresh in-memory
    `Balance{Amount: 0}` is fabricated (lines 96-102) — there is no
    amount validation and no `ErrBalanceNotFound` return;
  * `newAmount := balance.Amount + amount`; `repo.Update` (lines 104-113);
    the update error (row absent) is returned as-is;
  * `saveEvent` (line 116) is best-effort: its error is only logged;
  * an audit row is appended (lines 120-131, also best-effort — the model
    lets the append succeed);
  * NO `AddBalanceHistory` call appears anywhere in the function, so the
    history table passes through unchanged.
The pair result mirrors Go: the state component always reflects the
mutations made before the return. -/
def DepositAtomically (st : KernelState) (uid : Int) (amount : Amount) :
    Except Err Balance × KernelState :=
  let balance :=
    match findByUserID st.balances uid with
    | some b => b
    | none => { userId := uid, amount := 0 }
  let newB : Balance := { balance with amount := balance.amount + amount }
  match repoUpdate st.balances newB with
  | .error e => (.error e, st)
  | .ok db2 =>
      let events2 :=
        match balanceSaveEvent st.events st.events uid .balanceUpdated with
        | .ok es => es
        | .error _ => st.events
      let audit2 := st.audit ++
        [{ entityType := "balance", entityId := uid, action := "update",
           details := "Atomik para yatirma" }]
      (.ok newB, { st with balances := db2, events := events2, audit := audit2 })

/-- balance_service.go:143-205 `WithdrawAtomically`.  Control flow:
  * `FindByUserID`; a missing row returns `domain.ErrBalanceNotFound`
    (line 160);
  * `balance.Amount < amount` returns `domain.ErrInsufficientFunds` with
    the row untouched (lines 163-166);
  * otherwise `newAmount := balance.Amount - amount`, `repo.Update`,
    best-effort `saveEvent` and audit append; as in the deposit, NO
    `AddBalanceHistory` call is made. -/
def WithdrawAtomically (st : KernelState) (uid : Int) (amount : Amount) :
    Except Err Balance × KernelState :=
  match findByUserID st.balances uid with
  | none => (.error .balanceNotFound, st)
  | some balance =>
      if balance.amount < amount then
        (.error .insufficientFunds, st)
      else
        let newB : Balance := { balance with amount := balance.amount - amount }
        match repoUpdate st.balances newB with
        | .error e => (.error e, st)
        | .ok db2 =>
            let events2 :=
              match balanceSaveEvent st.events st.events uid .balanceUpdated with
              | .ok es => es
              | .error _ => st.events
            let audit2 := st.audit ++
              [{ entityType := "balance", entityId := uid, action := "update",
                 details := "Atomik para cekme" }]
            (.ok newB,
             { st with balances := db2, events := events2, audit := audit2 })

/-- balance_repository.go:176-205 `AddBalanceHistory`: plain append-only
insert into balance_history.  Embedded to make visible that the kernel
operations above never invoke it. -/
def AddBalanceHistory (st : KernelState) (h : BalanceHistory) : KernelState :=
  { st with history := st.history ++ [h] }

/-- internal/domain: transaction type. -/
inductive TxType where
  | deposit
  | withdraw
  | transfer
deriving Repr, DecidableEq

/-- internal/domain: transaction status. -/
inductive TxStatus where
  | pending
  | completed
  | failed
  | rolledBack
deriving Repr, DecidableEq

/-- internal/domain: `Transaction` row (timestamps and description
omitted). -/
structure Tx where
  id : Int
  fromUserId : Option Int
  toUserId : Option Int
  amount : Amount
  type : TxType
  status : TxStatus
deriving Repr, DecidableEq

/-- transaction_repository.go:482 `UpdateStatus`: `UPDATE transactions SET
status = $1 WHERE id = $2`; it does not check affected rows, so it is a
total map over the table. -/
def updateStatus (txs : List Tx) (id : Int) (status : TxStatus) : List Tx :=
  txs.map (fun t => if t.id == id then { t with status := status } else t)

/-- A call to the balance kernel through the `domain.BalanceService`
interface field of the TransactionService, as recorded by the test double
below. -/
inductive KernelCall where
  | withdraw (uid : Int) (amount : Amount)
  | deposit (uid : Int) (amount : Amount)
deriving Repr, DecidableEq

/-- The engine reaches the kernel through the injected
`domain.BalanceService` interface.  `SvcState` is the state behind that
interface: the kernel tables plus the call log the double records. -/
structure SvcState where
  kernel : KernelState
  calls : List KernelCall
deriving Repr, DecidableEq

/-- Fault injection for the balance-service double, playing the role that
the specification's scenario 5 prescribes ("simulate `DepositAtomically(2,
…)` storage failure"): deposits for a user id in `depositFaults` fail with
a storage error before touching the store.  The production wiring is
`depositFaults = []`, in which case the double is exactly the kernel. -/
structure FaultCfg where
  depositFaults : List Int
deriving Repr, DecidableEq

/-- The engine-facing view of balanceSvc.WithdrawAtomically: records the
call, then runs the kernel withdraw. -/
def withdrawCall (_cfg : FaultCfg) (s : SvcState) (uid : Int) (amount : Amount) :
    Except Err Balance × SvcState :=
  let s := { s with calls := s.calls ++ [KernelCall.withdraw uid amount] }
  let rk := WithdrawAtomically s.kernel uid amount
  (rk.1, { s with kernel := rk.2 })

/-- The engine-facing view of balanceSvc.DepositAtomically: records the
call; if the user id is in the injected fault set the call fails with a
storage error (store untouched), otherwise it runs the kernel deposit. -/
def depositCall (cfg : FaultCfg) (s : SvcState) (uid : Int) (amount : Amount) :
    Except Err Balance × SvcState :=
  let s := { s with calls := s.calls ++ [KernelCall.deposit uid amount] }
  if cfg.depositFaults.contains uid then
    (.error .storage, s)
  else
    let rk := DepositAtomically s.kernel uid amount
    (rk.1, { s with kernel := rk.2 })

/-- The state the transaction engine's processor touches: the balance
service behind the interface plus the transactions table (the shared
audit_logs table lives inside `svc.kernel.audit`; in Go both services
write the same table). -/
structure EngineState where
  svc : SvcState
  txs : List Tx
deriving Repr, DecidableEq

/-- transaction_service.go:204-260 `processTransfer`.  Control flow, in
source order:
  * dereference `*tx.FromUserID` / `*tx.ToUserID` (transfers always carry
    both; `getD 0` stands for the dereference);
  * `WithdrawAtomically(from, amount)`; on error: status → failed, return
    the error (lines 208-217);
  * `DepositAtomically(to, amount)`; on error: the compensating
    `DepositAtomically(from, amount)` is issued and its error is ONLY
    logged (lines 222-229 — `rollbackErr` flows into `s.logger.Error` and
    nowhere else); then status → failed and the ORIGINAL credit error is
    returned (lines 236-237).  No audit row is written on this path and
    no CompensationFailed value exists in the error set;
  * on credit success: status → completed, an engine audit row is
    appended, return ok (lines 240-259). -/
def processTransfer (cfg : FaultCfg) (st : EngineState) (tx : Tx) :
    Except Err Unit × EngineState :=
  let fromUid := tx.fromUserId.getD 0
  let toUid := tx.toUserId.getD 0
  match withdrawCall cfg st.svc fromUid tx.amount with
  | (.error e, svc1) =>
      (.error e, { svc := svc1, txs := updateStatus st.txs tx.id .failed })
  | (.ok _, svc1) =>
      match depositCall cfg svc1 toUid tx.amount with
      | (.error e, svc2) =>
          let svc3 := (depositCall cfg svc2 fromUid tx.amount).2
          (.error e, { svc := svc3, txs := updateStatus st.txs tx.id .failed })
      | (.ok _, svc2) =>
          let kernel3 := svc2.kernel
          let svc3 := { svc2 with kernel :=
            { kernel3 with audit := kernel3.audit ++
              [{ entityType := "transaction", entityId := tx.id,
                 action := "create", details := "Para transferi" }] } }
          (.ok (), { svc := svc3, txs := updateStatus st.txs tx.id .completed })

/-- part_017 `WorkerPool`: the bounded job channel plus the started flag
(the stats counters are modelled separately for the stats claim; only the
acceptance behaviour matters to the engine). -/
structure PoolState where
  started : Bool
  queue : List Tx
  capacity : Nat
deriving Repr, DecidableEq

/-- part_017:82-107 `Submit`: returns false when the pool is not started;
otherwise a select-with-default on the bounded channel — enqueue and
return true when there is room, return false when the buffer is full. -/
def poolSubmit (p : PoolState) (tx : Tx) : Bool × PoolState :=
  if !p.started then (false, p)
  else if p.queue.length < p.capacity then
    (true, { p with queue := p.queue ++ [tx] })
  else
    (false, p)

/-- The TransactionService state for the public entry points:
the balance service behind the interface, the transactions table with its
id sequence, the lazily created worker pool (`none` until
`initWorkerPool` runs — Go `workerPool *concurrent.WorkerPool` nil) and
the `initialized` flag. -/
structure TxServiceState where
  svc : SvcState
  txs : List Tx
  nextTxId : Int
  pool : Option PoolState
  initialized : Bool
deriving Repr, DecidableEq

/-- transaction_service.go:36-47 `NewTransactionService` as wired by the
factory and cmd/server/main.go: the pool is NOT created at construction
(`initialized: false`, `workerPool` nil). -/
def newTransactionService (balances : BalanceDB) : TxServiceState :=
  { svc := { kernel := { balances := balances, history := [], audit := [],
                         events := [] }, calls := [] },
    txs := [], nextTxId := 1, pool := none, initialized := false }

/-- transaction_service.go:49-75 `initWorkerPool`:
`NewWorkerPool(5, 100, processor)` followed by `Start()`; idempotent. -/
def initWorkerPool (st : TxServiceState) : TxServiceState :=
  if st.initialized then st
  else
    { st with pool := some { started := true, queue := [], capacity := 100 },
              initialized := true }

/-- transaction_service.go:77-81 `ensureWorkerPoolInitialized`. -/
def ensureWorkerPoolInitialized (st : TxServiceState) : TxServiceState :=
  if !st.initialized then initWorkerPool st else st

/-- How an entry point returns to its caller: a value, a Go error, or a
runtime panic (the nil-pointer dereference when a method runs on a nil
`*WorkerPool`). -/
inductive GoResult (α : Type) where
  | ok (a : α)
  | err (e : Err)
  | panicked
deriving Repr, DecidableEq

/-- transaction_repository.go:442 `Create`: inserts the row and assigns
the next id from the sequence.  The model lets the insert succeed. -/
def repoCreateTx (st : TxServiceState) (tx : Tx) : Tx × TxServiceState :=
  let tx := { tx with id := st.nextTxId }
  (tx, { st with txs := st.txs ++ [tx], nextTxId := st.nextTxId + 1 })

/-- transaction_service.go:108-129 `saveEvent` for the transaction
aggregate (one read, one append, best-effort at every call site). -/
def txSaveEvent (events : List Event) (txId : Int) (et : EventType) :
    List Event :=
  let lastVersion := getLastVersion events "transaction" (toString txId)
  match SaveEvent events
      { aggregateType := "transaction", aggregateId := toString txId,
        eventType := et, version := lastVersion + 1 } with
  | .ok es => es
  | .error _ => events

/-- transaction_service.go:453-481 `DepositFunds`.  Faithful control flow:
  * NO amount validation of any kind (compare `WithdrawFunds` below);
  * NO `ensureWorkerPoolInitialized` call;
  * create the pending row, best-effort `transaction_created` event;
  * `s.workerPool.Submit(transaction)` — when the pool was never
    initialized `s.workerPool` is nil and the method call dereferences a
    nil pointer: the goroutine panics (`panicked`), no error value is
    returned;
  * on a rejected submission: status → failed, return the overloaded
    error. -/
def DepositFunds (st : TxServiceState) (uid : Int) (amount : Amount) :
    GoResult Tx × TxServiceState :=
  let (tx, st) := repoCreateTx st
    { id := 0, fromUserId := none, toUserId := some uid, amount := amount,
      type := .deposit, status := .pending }
  let events2 := txSaveEvent st.svc.kernel.events tx.id .transactionCreated
  let st := { st with svc := { st.svc with kernel :=
    { st.svc.kernel with events := events2 } } }
  match st.pool with
  | none => (.panicked, st)
  | some p =>
      let (submitted, p2) := poolSubmit p tx
      let st := { st with pool := some p2 }
      if !submitted then
        (.err .overloaded, { st with txs := updateStatus st.txs tx.id .failed })
      else
        (.ok tx, st)

/-- transaction_service.go:483-529 `WithdrawFunds`:
`ensureWorkerPoolInitialized`; `amount <= 0` → validation error with
nothing persisted; missing sender row or insufficient funds → synchronous
rejection; otherwise create the pending row and submit. -/
def WithdrawFunds (st : TxServiceState) (uid : Int) (amount : Amount) :
    GoResult Tx × TxServiceState :=
  let st := ensureWorkerPoolInitialized st
  if amount ≤ 0 then (.err .invalidAmount, st)
  else
    match findByUserID st.svc.kernel.balances uid with
    | none => (.err .balanceNotFound, st)
    | some balance =>
        if balance.amount < amount then (.err .insufficientFunds, st)
        else
          let (tx, st) := repoCreateTx st
            { id := 0, fromUserId := some uid, toUserId := none,
              amount := amount, type := .withdraw, status := .pending }
          match st.pool with
          | none => (.panicked, st)
          | some p =>
              let (submitted, p2) := poolSubmit p tx
              let st := { st with pool := some p2 }
              if !submitted then
                (.err .overloaded,
                 { st with txs := updateStatus st.txs tx.id .failed })
              else
                (.ok tx, st)

/-- balance_service.go:207-250 `InitializeBalance` at the granularity the
engine needs: idempotent insert of a zero row if absent (spec §4.1), plus
the best-effort `balance_updated` event and audit row the source emits. -/
def InitializeBalance (k : KernelState) (uid : Int) : KernelState :=
  if (findByUserID k.balances uid).isSome then k
  else
    let events2 :=
      match balanceSaveEvent k.events k.events uid .balanceUpdated with
      | .ok es => es
      | .error _ => k.events
    { k with balances := k.balances ++ [{ userId := uid, amount := 0 }],
             events := events2,
             audit := k.audit ++
               [{ entityType := "balance", entityId := uid,
                  action := "create", details := "Bakiye baslatildi" }] }

/-- transaction_service.go:531-595 `TransferFunds`:
`ensureWorkerPoolInitialized`; `amount <= 0` → validation error;
`fromUserID == toUserID` → validation error (nothing persisted in either
case); missing sender row / insufficient funds → synchronous rejection;
missing receiver row → `InitializeBalance`; create the pending row and
submit. -/
def TransferFunds (st : TxServiceState) (fromUid toUid : Int)
    (amount : Amount) : GoResult Tx × TxServiceState :=
  let st := ensureWorkerPoolInitialized st
  if amount ≤ 0 then (.err .invalidAmount, st)
  else if fromUid == toUid then (.err .invalidTransaction, st)
  else
    match findByUserID st.svc.kernel.balances fromUid with
    | none => (.err .balanceNotFound, st)
    | some fromBalance =>
        if fromBalance.amount < amount then (.err .insufficientFunds, st)
        else
          let st :=
            if (findByUserID st.svc.kernel.balances toUid).isSome then st
            else
              let kernel2 := InitializeBalance st.svc.kernel toUid
              { st with svc := { st.svc with kernel := kernel2 } }
          let (tx, st) := repoCreateTx st
            { id := 0, fromUserId := some fromUid, toUserId := some toUid,
              amount := amount, type := .transfer, status := .pending }
          match st.pool with
          | none => (.panicked, st)
          | some p =>
              let (submitted, p2) := poolSubmit p tx
              let st := { st with pool := some p2 }
              if !submitted then
                (.err .overloaded,
                 { st with txs := updateStatus st.txs tx.id .failed })
              else
                (.ok tx, st)

/-- part_019: circuit-breaker state. -/
inductive CBState where
  | closed
  | open
  | halfOpen
deriving Repr, DecidableEq

/-- part_019:45-51 `Counts`. -/
structure Counts where
  requests : Nat
  totalSuccesses : Nat
  totalFailures : Nat
  consecutiveSuccesses : Nat
  consecutiveFailures : Nat
deriving Repr, DecidableEq

/-- part_019:53-55 `Counts.onRequest`. -/
def countsOnRequest (c : Counts) : Counts :=
  { c with requests := c.requests + 1 }

/-- part_019:57-61 `Counts.onSuccess`. -/
def countsOnSuccess (c : Counts) : Counts :=
  { c with totalSuccesses := c.totalSuccesses + 1,
           consecutiveSuccesses := c.consecutiveSuccesses + 1,
           consecutiveFailures := 0 }

/-- part_019:63-67 `Counts.onFailure`. -/
def countsOnFailure (c : Counts) : Counts :=
  { c with totalFailures := c.totalFailures + 1,
           consecutiveFailures := c.consecutiveFailures + 1,
           consecutiveSuccesses := 0 }

/-- part_019:69-75 `Counts.clear`. -/
def countsClear : Counts :=
  { requests := 0, totalSuccesses := 0, totalFailures := 0,
    consecutiveSuccesses := 0, consecutiveFailures := 0 }

/-- part_019:77-91 `CircuitBreaker`.  Wall-clock instants are integers;
the Go zero `time.Time` used as "no expiry" is `none`. -/
structure CB where
  maxRequests : Nat
  interval : Int
  timeout : Int
  readyToTrip : Counts → Bool
  state : CBState
  generation : Nat
  counts : Counts
  expiry : Option Int

/-- part_019:129-131 `defaultReadyToTrip`:
`counts.ConsecutiveFailures > 5`. -/
def defaultReadyToTrip (c : Counts) : Bool :=
  c.consecutiveFailures > 5

/-- part_019:239-256 `toNewGeneration`. -/
def toNewGeneration (cb : CB) (now : Int) : CB :=
  let cb := { cb with generation := cb.generation + 1, counts := countsClear }
  match cb.state with
  | .closed =>
      if cb.interval == 0 then { cb with expiry := none }
      else { cb with expiry := some (now + cb.interval) }
  | .open => { cb with expiry := some (now + cb.timeout) }
  | .halfOpen => { cb with expiry := none }

/-- part_019:224-237 `setState` (the `onStateChange` callback is
observability only and is dropped). -/
def setState (cb : CB) (state : CBState) (now : Int) : CB :=
  if cb.state == state then cb
  else toNewGeneration { cb with state := state } now

/-- part_019:93-127 `New` with the Go defaults applied
(`maxRequests = 1`, `interval = timeout = 60s`, `defaultReadyToTrip`),
followed by the constructor's `toNewGeneration(now)`. -/
def newDefaultCB (now : Int) : CB :=
  toNewGeneration
    { maxRequests := 1, interval := 60, timeout := 60,
      readyToTrip := defaultReadyToTrip, state := .closed, generation := 0,
      counts := countsClear, expiry := none } now

/-- part_019:210-222 `currentState`: in `closed`, a passed interval
expiry rolls the generation; in `open`, a passed timeout expiry moves to
`half-open`; returns the (possibly updated) breaker with its state and
generation. -/
def currentState (cb : CB) (now : Int) : CB × CBState × Nat :=
  let cb :=
    match cb.state with
    | .closed =>
        match cb.expiry with
        | some e => if e < now then toNewGeneration cb now else cb
        | none => cb
    | .open =>
        match cb.expiry with
        | some e => if e < now then setState cb .halfOpen now else cb
        | none => cb
    | .halfOpen => cb
  (cb, cb.state, cb.generation)

/-- part_019:160-175 `beforeRequest`: `open` fails with
CircuitBreakerOpen; `half-open` at the probe limit fails with
TooManyRequests; otherwise the request counter advances and the captured
generation is returned. -/
def beforeRequest (cb : CB) (now : Int) :
    CB × Except Err Nat :=
  let (cb, state, generation) := currentState cb now
  match state with
  | .open => (cb, .error .circuitBreakerOpen)
  | _ =>
      if state == .halfOpen && cb.counts.requests ≥ cb.maxRequests then
        (cb, .error .tooManyRequests)
      else
        ({ cb with counts := countsOnRequest cb.counts }, .ok generation)

/-- part_019:194-200 `onSuccess`. -/
def cbOnSuccess (cb : CB) (state : CBState) (now : Int) : CB :=
  let cb := { cb with counts := countsOnSuccess cb.counts }
  if state == .halfOpen && cb.counts.consecutiveSuccesses ≥ cb.maxRequests then
    setState cb .closed now
  else cb

/-- part_019:202-208 `onFailure`: the counts record the failure, and the
breaker opens IF AND ONLY IF `readyToTrip(counts)` holds — the function
does not branch on the current state, so a failure in `half-open` does
NOT unconditionally reopen the breaker. -/
def cbOnFailure (cb : CB) (state : CBState) (now : Int) : CB :=
  let cb := { cb with counts := countsOnFailure cb.counts }
  let _ := state
  if cb.readyToTrip cb.counts then setState cb .open now
  else cb

/-- part_019:177-192 `afterRequest`: drops stale completions (generation
advanced), otherwise applies the outcome. -/
def afterRequest (cb : CB) (now : Int) (before : Nat) (success : Bool) : CB :=
  let (cb, state, generation) := currentState cb now
  if generation != before then cb
  else if success then cbOnSuccess cb state now
  else cbOnFailure cb state now

/-- One failed call through `Execute` (part_019:137-154) at instant
`now`: `beforeRequest`, and — when admitted — `afterRequest` with an
unsuccessful outcome. -/
def failedCall (cb : CB) (now : Int) : CB :=
  match beforeRequest cb now with
  | (cb, .error _) => cb
  | (cb, .ok generation) => afterRequest cb now generation false

/-- Worker-pool accounting state (part_017 + stats_collector.go): the four
atomic counters, the channel occupancy and the number of transactions a
worker has taken off the channel but not yet finished. -/
structure WpState where
  capacity : Nat
  submitted : Nat
  completed : Nat
  failed : Nat
  rejected : Nat
  queueLength : Nat
  inFlight : Nat
deriving Repr, DecidableEq

/-- The atomic events of the pool:
  * `submitOk` — part_017:92-99: the select lands in the channel case;
    `IncrementSubmitted`, occupancy grows (guard: room in the buffer);
  * `submitFull` — part_017:100-106: the select falls to default on a
    full buffer; ONLY `IncrementRejected` runs — `Submitted` is not
    incremented on this path;
  * `take` — part_017:117: a worker receives from the channel;
  * `doneFail` / `doneOk` — part_017:135-151: the processor returned;
    `IncrementFailed`, or `IncrementCompleted`. -/
inductive WpAction where
  | submitOk
  | submitFull
  | take
  | doneOk
  | doneFail
deriving Repr, DecidableEq

/-- One pool event; an event whose guard does not hold leaves the state
unchanged (it cannot occur). -/
def wpStep (s : WpState) (a : WpAction) : WpState :=
  match a with
  | .submitOk =>
      if s.queueLength < s.capacity then
        { s with submitted := s.submitted + 1,
                 queueLength := s.queueLength + 1 }
      else s
  | .submitFull =>
      if s.queueLength ≥ s.capacity then
        { s with rejected := s.rejected + 1 }
      else s
  | .take =>
      if s.queueLength ≥ 1 then
        { s with queueLength := s.queueLength - 1,
                 inFlight := s.inFlight + 1 }
      else s
  | .doneOk =>
      if s.inFlight ≥ 1 then
        { s with inFlight := s.inFlight - 1,
                 completed := s.completed + 1 }
      else s
  | .doneFail =>
      if s.inFlight ≥ 1 then
        { s with inFlight := s.inFlight - 1,
                 failed := s.failed + 1 }
      else s

/-- A freshly constructed pool (`NewStatsCollector` zeroes every
counter). -/
def wpInit (capacity : Nat) : WpState :=
  { capacity := capacity, submitted := 0, completed := 0, failed := 0,
    rejected := 0, queueLength := 0, inFlight := 0 }

/-- Executing a sequence of pool events. -/
def wpExec (capacity : Nat) (as : List WpAction) : WpState :=
  as.foldl wpStep (wpInit capacity)

/-- A state of the pool is reachable when some event sequence produces
it from a freshly constructed pool. -/
def WpReachable (s : WpState) : Prop :=
  ∃ capacity as, s = wpExec capacity as

/-- The concurrent deposit path of balance_service.go:81-141 for an
existing row, reduced to its two store operations: the `FindByUserID`
read (its own RLock, line 89) and the `repo.Update` write of
`balance.Amount + amount` (its own Lock, lines 104-109).  The repository
mutex is NOT held across the pair, so operations of two concurrent
deposits can interleave between the read and the write.  Each store
operation is atomic; a thread is a program counter over them. -/
inductive DepPc where
  | toRead
  | toWrite (b : Balance)
  | finished
deriving Repr, DecidableEq

/-- One atomic step of a deposit thread for `uid` with amount `amt`
against the shared balances table. -/
def depStep (db : BalanceDB) (uid : Int) (amt : Amount) (pc : DepPc) :
    BalanceDB × DepPc :=
  match pc with
  | .toRead =>
      match findByUserID db uid with
      | some b => (db, .toWrite b)
      | none => (db, .toWrite { userId := uid, amount := 0 })
  | .toWrite b =>
      let newB : Balance := { b with amount := b.amount + amt }
      match repoUpdate db newB with
      | .ok db2 => (db2, .finished)
      | .error _ => (db, .finished)
  | .finished => (db, pc)

/-- Run a schedule over two deposit threads on the same account:
`true` steps the first thread, `false` the second. -/
def runSched (uid : Int) (d1 d2 : Amount) :
    List Bool → BalanceDB → DepPc → DepPc → BalanceDB × DepPc × DepPc
  | [], db, pc1, pc2 => (db, pc1, pc2)
  | i :: rest, db, pc1, pc2 =>
      if i then
        let (db2, pc1b) := depStep db uid d1 pc1
        runSched uid d1 d2 rest db2 pc1b pc2
      else
        let (db2, pc2b) := depStep db uid d2 pc2
        runSched uid d1 d2 rest db2 pc1 pc2b

/-- Two concurrent deposits from scratch under a given interleaving. -/
def twoDeposits (uid : Int) (b d1 d2 : Amount) (sched : List Bool) :
    BalanceDB × DepPc × DepPc :=
  runSched uid d1 d2 sched [{ userId := uid, amount := b }] .toRead .toRead

/-! ## Helper lemmas about the balances table -/

lemma find?_userId_eq {db : BalanceDB} {uid : Int} {b : Balance}
    (h : findByUserID db uid = some b) : b.userId = uid := by
  have hp := List.find?_some h
  simpa using hp

lemma any_userId_of_find? {db : BalanceDB} {uid : Int} {b : Balance}
    (h : findByUserID db uid = some b) :
    db.any (fun x => x.userId == uid) = true := by
  have hmem := List.mem_of_find?_eq_some h
  have hp := List.find?_some h
  exact List.any_eq_true.mpr ⟨b, hmem, hp⟩

lemma not_any_of_find?_none {db : BalanceDB} {uid : Int}
    (h : findByUserID db uid = none) :
    db.any (fun x => x.userId == uid) = false := by
  rw [List.any_eq_false]
  intro x hx
  have := List.find?_eq_none.mp h x hx
  simpa using this

lemma find?_after_update {db : BalanceDB} {uid : Int} {b : Balance}
    (newB : Balance) (hn : newB.userId = uid)
    (h : findByUserID db uid = some b) :
    findByUserID (db.map fun x => if x.userId == uid then newB else x) uid
      = some newB := by
  induction db with
  | nil => simp [findByUserID] at h
  | cons a l ih =>
      by_cases ha : a.userId = uid
      · simp [findByUserID, List.find?, ha, hn]
      · have ha2 : (a.userId == uid) = false := by simpa using ha
        unfold findByUserID at h ⊢
        rw [List.find?_cons_of_neg _ (by simp [ha2])] at h
        rw [List.map_cons, if_neg (by simp [ha2] : ¬ (a.userId == uid) = true),
          List.find?_cons_of_neg _ (by simp [ha2])]
        exact ih h

/-! ## C4 — WithdrawAtomically boundary behaviour -/

/-- C4: for every user whose balance row exists with amount `b` and every
requested amount `a`, `WithdrawAtomically` rejects with InsufficientFunds
and leaves the stored amount at `b` whenever `b - a < 0`, and succeeds
leaving the stored amount exactly `b - a` whenever `b - a ≥ 0` (in
particular `a = b` succeeds and leaves the balance 0). -/
theorem withdrawAtomically_boundary (st : KernelState) (uid : Int)
    (bal : Balance) (a : Amount)
    (h : findByUserID st.balances uid = some bal) :
    (bal.amount - a < 0 →
      WithdrawAtomically st uid a = (.error .insufficientFunds, st)) ∧
    (0 ≤ bal.amount - a →
      (WithdrawAtomically st uid a).1
          = .ok { bal with amount := bal.amount - a } ∧
      ((findByUserID (WithdrawAtomically st uid a).2.balances uid).map
          Balance.amount) = some (bal.amount - a)) := by
  have huid := find?_userId_eq h
  have hany := any_userId_of_find? h
  have hnu : ({ bal with amount := bal.amount - a } : Balance).userId = uid :=
    huid
  constructor
  · intro hlt
    have hlt2 : bal.amount < a := sub_neg.mp hlt
    simp only [WithdrawAtomically, h, if_pos hlt2]
  · intro hge
    have hnlt : ¬ bal.amount < a := not_lt.mpr (sub_nonneg.mp hge)
    have hupd : repoUpdate st.balances { bal with amount := bal.amount - a }
        = .ok (st.balances.map fun x =>
            if x.userId == uid
            then { bal with amount := bal.amount - a } else x) := by
      unfold repoUpdate
      rw [hnu, if_pos hany]
    simp only [WithdrawAtomically, h, if_neg hnlt, hupd]
    exact ⟨by trivial, by rw [find?_after_update _ hnu h]; rfl⟩

/-- Witness for C4 at a concrete input: user 1 holds 50; withdrawing 60
is rejected leaving 50, withdrawing exactly 50 succeeds leaving 0. -/
theorem withdrawAtomically_boundary_witness :
    (WithdrawAtomically
        { balances := [{ userId := 1, amount := 50 }], history := [],
          audit := [], events := [] } 1 60
      = (.error .insufficientFunds,
         { balances := [{ userId := 1, amount := 50 }], history := [],
           audit := [], events := [] })) ∧
    ((WithdrawAtomically
        { balances := [{ userId := 1, amount := 50 }], history := [],
          audit := [], events := [] } 1 50).1
      = .ok { userId := 1, amount := 0 }) :=
  ⟨(withdrawAtomically_boundary _ 1 { userId := 1, amount := 50 } 60
      (by rfl)).1 (by decide),
   ((withdrawAtomically_boundary _ 1 { userId := 1, amount := 50 } 50
      (by rfl)).2 (by decide)).1⟩

/-! ## C3 — DepositAtomically validation and missing-row behaviour -/

/-- Counterexample to C3: with an existing row (user 1, amount 50),
`DepositAtomically(1, 0)` — an amount ≤ 0 — does NOT return InvalidAmount:
it succeeds, and `DepositAtomically(1, -5)` updates the row to 45, so the
operation updates existing rows for amounts that are not positive. -/
theorem depositAtomically_no_validation_counterexample :
    ((DepositAtomically
        { balances := [{ userId := 1, amount := 50 }], history := [],
          audit := [], events := [] } 1 0).1
      = .ok { userId := 1, amount := 50 }) ∧
    ((DepositAtomically
        { balances := [{ userId := 1, amount := 50 }], history := [],
          audit := [], events := [] } 1 0).1
      ≠ .error .invalidAmount) ∧
    ((findByUserID (DepositAtomically
        { balances := [{ userId := 1, amount := 50 }], history := [],
          audit := [], events := [] } 1 (-5)).2.balances 1).map Balance.amount
      = some 45) := by
  refine ⟨rfl, ?_, rfl⟩
  intro hc
  rw [show (DepositAtomically
      { balances := [{ userId := 1, amount := 50 }], history := [],
        audit := [], events := [] } 1 0).1
    = Except.ok { userId := 1, amount := 50 } from rfl] at hc
  exact Except.noConfusion hc

/-- C3 as the code has it: `DepositAtomically` performs no amount
validation at all.  For a user with an existing row of amount `b` it
updates the row to `b + amount` and succeeds for EVERY amount, including
amounts ≤ 0.  For a user with no balance row it creates no row and fails
— but with the repository's generic "update affected no row" error, not
with `ErrBalanceNotFound`. -/
theorem depositAtomically_amended (st : KernelState) (uid : Int)
    (a : Amount) :
    (∀ bal, findByUserID st.balances uid = some bal →
      (DepositAtomically st uid a).1
          = .ok { bal with amount := bal.amount + a } ∧
      ((findByUserID (DepositAtomically st uid a).2.balances uid).map
          Balance.amount) = some (bal.amount + a)) ∧
    (findByUserID st.balances uid = none →
      DepositAtomically st uid a = (.error .updateRowNotFound, st)) := by
  constructor
  · intro bal h
    have huid := find?_userId_eq h
    have hany := any_userId_of_find? h
    have hnu : ({ bal with amount := bal.amount + a } : Balance).userId = uid :=
      huid
    have hupd : repoUpdate st.balances { bal with amount := bal.amount + a }
        = .ok (st.balances.map fun x =>
            if x.userId == uid
            then { bal with amount := bal.amount + a } else x) := by
      unfold repoUpdate
      rw [hnu, if_pos hany]
    simp only [DepositAtomically, h, hupd]
    exact ⟨by trivial, by rw [find?_after_update _ hnu h]; rfl⟩
  · intro h
    have hany := not_any_of_find?_none h
    have hupd : repoUpdate st.balances { userId := uid, amount := 0 + a }
        = .error .updateRowNotFound := by
      unfold repoUpdate
      rw [if_neg (by simp [hany])]
    simp only [DepositAtomically, h, hupd]

/-- Witness for the amended C3: a deposit of -5 onto (user 1, 50) yields
45, and a deposit for user 2 — who has no row — fails with the generic
update error and leaves the table unchanged. -/
theorem depositAtomically_amended_witness :
    ((DepositAtomically
        { balances := [{ userId := 1, amount := 50 }], history := [],
          audit := [], events := [] } 1 (-5)).1
      = .ok { userId := 1, amount := 45 }) ∧
    (DepositAtomically
        { balances := [{ userId := 1, amount := 50 }], history := [],
          audit := [], events := [] } 2 7
      = (.error .updateRowNotFound,
         { balances := [{ userId := 1, amount := 50 }], history := [],
           audit := [], events := [] })) :=
  ⟨((depositAtomically_amended _ 1 (-5)).1 { userId := 1, amount := 50 }
      (by rfl)).1,
   (depositAtomically_amended _ 2 7).2 (by rfl)⟩

/-! ## C5 — no BalanceHistory row on successful mutations -/

/-- C5 (behaviour of the code at the claim's cited functions): neither
`DepositAtomically` nor `WithdrawAtomically` ever appends a
BalanceHistory record — the history table is unchanged on every path,
successful or not, contradicting the required "exactly one history row
per successful mutation".  At the concrete failing input (user 1 holding
50, a successful deposit of 100 and a successful withdrawal of 10) the
history table stays empty. -/
theorem balance_mutations_append_no_history :
    (∀ (st : KernelState) (uid : Int) (a : Amount),
      (DepositAtomically st uid a).2.history = st.history ∧
      (WithdrawAtomically st uid a).2.history = st.history) ∧
    ((DepositAtomically
        { balances := [{ userId := 1, amount := 50 }], history := [],
          audit := [], events := [] } 1 100).1
      = .ok { userId := 1, amount := 150 } ∧
     (DepositAtomically
        { balances := [{ userId := 1, amount := 50 }], history := [],
          audit := [], events := [] } 1 100).2.history = []) ∧
    ((WithdrawAtomically
        { balances := [{ userId := 1, amount := 50 }], history := [],
          audit := [], events := [] } 1 10).1
      = .ok { userId := 1, amount := 40 } ∧
     (WithdrawAtomically
        { balances := [{ userId := 1, amount := 50 }], history := [],
          audit := [], events := [] } 1 10).2.history = []) := by
  refine ⟨fun st uid a => ⟨?_, ?_⟩, ⟨rfl, rfl⟩, ⟨rfl, rfl⟩⟩
  · simp only [DepositAtomically]
    repeat' split
    all_goals rfl
  · simp only [WithdrawAtomically]
    repeat' split
    all_goals rfl

/-! ## C1 — transfer compensation path -/

/-- Every `depositCall` records the kernel call in the state, on the
faulted path and the kernel path alike. -/
lemma depositCall_records_call (cfg : FaultCfg) (s : SvcState) (uid : Int)
    (amount : Amount) :
    ((depositCall cfg s uid amount).2).calls
      = s.calls ++ [KernelCall.deposit uid amount] := by
  unfold depositCall
  split <;> rfl

/-- Scenario 5 fault configuration in which the credit AND the
compensating deposit both hit storage failures. -/
def cfgBothFail : FaultCfg := { depositFaults := [1, 2] }

/-- Scenario 5 fault configuration in which only the credit (user 2)
hits a storage failure; the compensating deposit to user 1 succeeds. -/
def cfgCreditFail : FaultCfg := { depositFaults := [2] }

/-- The transfer of the spec's scenario 5: user 1 sends 25 to user 2. -/
def txTransfer : Tx :=
  { id := 7, fromUserId := some 1, toUserId := some 2, amount := 25,
    type := .transfer, status := .pending }

/-- Pre-state of scenario 5: user 1 holds 100, user 2 holds 0, the
transfer row is pending, all logs empty. -/
def estTransfer : EngineState :=
  { svc := { kernel := { balances := [{ userId := 1, amount := 100 },
                                      { userId := 2, amount := 0 }],
                         history := [], audit := [], events := [] },
             calls := [] },
    txs := [txTransfer] }

/-- Counterexample to C1's second half: when the compensating deposit
itself fails (both deposits faulted), `processTransfer` returns the
ORIGINAL credit error — a storage error; the error set translated from
domain/errors.go contains no CompensationFailed value at all — and the
audit log holds only the routine row appended by the successful
withdrawal: no record of the compensation failure is written.  (The
first half of the claim is visible too: the call log ends with the
compensating `deposit 1 25` and the transaction is marked failed.) -/
theorem processTransfer_compensation_counterexample :
    ((processTransfer cfgBothFail estTransfer txTransfer).1
        = .error .storage) ∧
    ((processTransfer cfgBothFail estTransfer txTransfer).2.svc.kernel.audit
        = [{ entityType := "balance", entityId := 1, action := "update",
             details := "Atomik para cekme" }]) ∧
    ((processTransfer cfgBothFail estTransfer txTransfer).2.svc.calls
        = [KernelCall.withdraw 1 25, KernelCall.deposit 2 25,
           KernelCall.deposit 1 25]) ∧
    ((processTransfer cfgBothFail estTransfer txTransfer).2.txs
        = [{ txTransfer with status := TxStatus.failed }]) :=
  ⟨rfl, rfl, rfl, rfl⟩

/-- C1 as the code has it: when the debit succeeds and the credit fails,
the engine performs the compensating `DepositAtomically(from, amount)`
(the final service state is exactly the state after that third kernel
call, whose call record it contains) and marks the transaction failed;
the caller always receives the ORIGINAL credit error — if the
compensating deposit itself fails this is merely logged: no
CompensationFailed error is surfaced (no such error value exists) and no
audit record of the failure is written on this path. -/
theorem processTransfer_failed_credit (cfg : FaultCfg) (st : EngineState)
    (tx : Tx) (f t : Int) (bal : Balance) (e : Err) (s1 s2 : SvcState)
    (hf : tx.fromUserId = some f) (ht : tx.toUserId = some t)
    (hw : withdrawCall cfg st.svc f tx.amount = (.ok bal, s1))
    (hd : depositCall cfg s1 t tx.amount = (.error e, s2)) :
    (processTransfer cfg st tx
      = (.error e,
         { svc := (depositCall cfg s2 f tx.amount).2,
           txs := updateStatus st.txs tx.id .failed })) ∧
    ((depositCall cfg s2 f tx.amount).2).calls
      = s2.calls ++ [KernelCall.deposit f tx.amount] := by
  constructor
  · simp only [processTransfer, hf, ht, Option.getD_some, hw, hd]
  · exact depositCall_records_call cfg s2 f tx.amount

/-- Intermediate states of the witness run: after the recorded debit and
after the faulted credit. -/
def wSvc1 : SvcState := (withdrawCall cfgCreditFail estTransfer.svc 1 25).2

def wSvc2 : SvcState := (depositCall cfgCreditFail wSvc1 2 25).2

/-- Witness for the amended C1 at scenario 5 with a succeeding
compensator. -/
theorem processTransfer_failed_credit_witness :
    (processTransfer cfgCreditFail estTransfer txTransfer
      = (.error .storage,
         { svc := (depositCall cfgCreditFail wSvc2 1 25).2,
           txs := updateStatus estTransfer.txs 7 .failed })) ∧
    ((depositCall cfgCreditFail wSvc2 1 25).2).calls
      = wSvc2.calls ++ [KernelCall.deposit 1 25] :=
  processTransfer_failed_credit cfgCreditFail estTransfer txTransfer 1 2
    { userId := 1, amount := 75 } .storage wSvc1 wSvc2 rfl rfl (by rfl) (by rfl)

/-! ## C2 — synchronous validation of the three money moves -/

/-- Calling `ensureWorkerPoolInitialized` only ever touches the pool and
the initialized flag. -/
lemma ensure_preserves (st : TxServiceState) :
    (ensureWorkerPoolInitialized st).txs = st.txs ∧
    (ensureWorkerPoolInitialized st).svc = st.svc := by
  unfold ensureWorkerPoolInitialized initWorkerPool
  split
  · split <;> exact ⟨rfl, rfl⟩
  · exact ⟨rfl, rfl⟩

/-- A ready pool state: freshly initialized and with the engine wired
(user 1 holding 50 in the balances table). -/
def stReady : TxServiceState :=
  initWorkerPool (newTransactionService [{ userId := 1, amount := 50 }])

/-- Counterexample to C2: `DepositFunds(1, -5)` — an amount ≤ 0 — is NOT
rejected with a validation error: the call succeeds and a transaction
row for -5 is created and persisted (DepositFunds has no validation step
at all, unlike WithdrawFunds and TransferFunds). -/
theorem depositFunds_no_validation_counterexample :
    ((DepositFunds stReady 1 (-5)).1
      = .ok { id := 1, fromUserId := none, toUserId := some 1, amount := -5,
              type := .deposit, status := .pending }) ∧
    ((DepositFunds stReady 1 (-5)).2.txs
      = [{ id := 1, fromUserId := none, toUserId := some 1, amount := -5,
           type := .deposit, status := .pending }]) :=
  ⟨rfl, rfl⟩

/-- C2 as the code has it: `WithdrawFunds` and `TransferFunds` reject
amount ≤ 0 (and, for transfers, from = to) synchronously with a
validation error, creating no transaction row and leaving the stores
untouched (only the lazy pool initialization happens).  `DepositFunds`
performs no validation: for EVERY amount — including amounts ≤ 0 — it
creates and persists a pending transaction row and submits it. -/
theorem moneyMove_validation (st : TxServiceState) (uid f t : Int)
    (a : Amount) :
    (a ≤ 0 →
      WithdrawFunds st uid a
          = (.err .invalidAmount, ensureWorkerPoolInitialized st) ∧
      (WithdrawFunds st uid a).2.txs = st.txs ∧
      (WithdrawFunds st uid a).2.svc = st.svc) ∧
    (a ≤ 0 →
      TransferFunds st f t a
          = (.err .invalidAmount, ensureWorkerPoolInitialized st) ∧
      (TransferFunds st f t a).2.txs = st.txs ∧
      (TransferFunds st f t a).2.svc = st.svc) ∧
    (0 < a → f = t →
      TransferFunds st f t a
          = (.err .invalidTransaction, ensureWorkerPoolInitialized st) ∧
      (TransferFunds st f t a).2.txs = st.txs) ∧
    (∀ p, st.pool = some p → p.started = true →
      p.queue.length < p.capacity →
      (DepositFunds st uid a).1
        = .ok { id := st.nextTxId, fromUserId := none, toUserId := some uid,
                amount := a, type := .deposit, status := .pending } ∧
      (DepositFunds st uid a).2.txs
        = st.txs ++ [{ id := st.nextTxId, fromUserId := none,
                       toUserId := some uid, amount := a, type := .deposit,
                       status := .pending }]) := by
  refine ⟨?_, ?_, ?_, ?_⟩
  · intro ha
    have h1 : WithdrawFunds st uid a
        = (.err .invalidAmount, ensureWorkerPoolInitialized st) := by
      simp only [WithdrawFunds, if_pos ha]
    exact ⟨h1, by rw [h1]; exact (ensure_preserves st).1,
           by rw [h1]; exact (ensure_preserves st).2⟩
  · intro ha
    have h1 : TransferFunds st f t a
        = (.err .invalidAmount, ensureWorkerPoolInitialized st) := by
      simp only [TransferFunds, if_pos ha]
    exact ⟨h1, by rw [h1]; exact (ensure_preserves st).1,
           by rw [h1]; exact (ensure_preserves st).2⟩
  · intro ha hft
    have hna : ¬ a ≤ 0 := not_le.mpr ha
    have h1 : TransferFunds st f t a
        = (.err .invalidTransaction, ensureWorkerPoolInitialized st) := by
      simp only [TransferFunds, if_neg hna, hft, if_pos]
      simp
    exact ⟨h1, by rw [h1]; exact (ensure_preserves st).1⟩
  · intro p hp hs hq
    simp only [DepositFunds, repoCreateTx, hp, poolSubmit, hs,
      Bool.not_true, Bool.false_eq_true, if_false, if_pos hq]
    exact ⟨by trivial, by trivial⟩

/-- Witness for the amended C2 at concrete inputs: amount 0 withdrawals
and transfers are rejected with nothing persisted, a same-user transfer
of 5 is rejected, and `DepositFunds(1, -5)` on the ready service creates
the pending row. -/
theorem moneyMove_validation_witness :
    (WithdrawFunds stReady 1 0
        = (.err .invalidAmount, ensureWorkerPoolInitialized stReady)) ∧
    (TransferFunds stReady 1 2 0
        = (.err .invalidAmount, ensureWorkerPoolInitialized stReady)) ∧
    (TransferFunds stReady 1 1 5
        = (.err .invalidTransaction, ensureWorkerPoolInitialized stReady)) ∧
    ((DepositFunds stReady 1 (-5)).2.txs
        = stReady.txs ++ [{ id := 1, fromUserId := none, toUserId := some 1,
                            amount := -5, type := .deposit,
                            status := .pending }]) :=
  ⟨((moneyMove_validation stReady 1 1 2 0).1 (by decide)).1,
   ((moneyMove_validation stReady 1 1 2 0).2.1 (by decide)).1,
   ((moneyMove_validation stReady 1 1 1 5).2.2.1 (by decide) rfl).1,
   ((moneyMove_validation stReady 1 1 2 (-5)).2.2.2
      { started := true, queue := [], capacity := 100 }
      (by rfl) (by rfl) (by decide)).2⟩

/-! ## C6 — event version conflict is surfaced with no retry -/

/-- A second append on an unchanged store always succeeds: the version is
computed as `last_version + 1` from the same snapshot the check reads. -/
lemma balanceSaveEvent_self (s : List Event) (uid : Int) (et : EventType) :
    balanceSaveEvent s s uid et
      = .ok (s ++
          [{ aggregateType := "balance", aggregateId := toString uid,
             eventType := et,
             version := getLastVersion s "balance" (toString uid) + 1 }]) := by
  simp [balanceSaveEvent, SaveEvent]

/-- Snapshot pair exhibiting an interfering append: the writer read an
empty partition, but event v1 for balance aggregate "1" landed before
its `SaveEvent` ran. -/
def evRead : List Event := []

def evSave : List Event :=
  [{ aggregateType := "balance", aggregateId := "1",
     eventType := .balanceUpdated, version := 1 }]

/-- Counterexample to C6: on a version conflict the writer surfaces
ConcurrentModification from its single append attempt; the spec-modelled
single-retry writer succeeds at the same input, so the implemented
writer does not retry (neither balance_service.go:41-62 nor
part_002:22-50 contains any retry). -/
theorem saveEvent_no_retry_counterexample :
    (balanceSaveEvent evRead evSave 1 .balanceUpdated
        = .error .concurrentModification) ∧
    (saveEventSpecSingleRetry evRead evSave 1 .balanceUpdated
        = .ok (evSave ++
            [{ aggregateType := "balance", aggregateId := "1",
               eventType := .balanceUpdated, version := 2 }])) :=
  ⟨rfl, rfl⟩

/-- C6 as the code has it: the event writer computes `version =
last_version + 1` from one read and makes exactly one append attempt;
whenever the partition's last version moved between the read and the
append, ConcurrentModification is surfaced immediately — while the
writer the spec describes (re-read and retry once) would have succeeded
on its retry. -/
theorem saveEvent_single_attempt (readStore saveStore : List Event)
    (uid : Int) (et : EventType)
    (h : getLastVersion readStore "balance" (toString uid)
       ≠ getLastVersion saveStore "balance" (toString uid)) :
    (balanceSaveEvent readStore saveStore uid et
        = .error .concurrentModification) ∧
    (saveEventSpecSingleRetry readStore saveStore uid et
        = .ok (saveStore ++
            [{ aggregateType := "balance", aggregateId := toString uid,
               eventType := et,
               version := getLastVersion saveStore "balance" (toString uid)
                 + 1 }])) := by
  have h1 : balanceSaveEvent readStore saveStore uid et
      = .error .concurrentModification := by
    simp only [balanceSaveEvent, SaveEvent]
    split
    · rfl
    · rename_i hc
      exfalso
      apply h
      simp only [bne_iff_ne, ne_eq, not_not] at hc
      omega
  refine ⟨h1, ?_⟩
  unfold saveEventSpecSingleRetry
  rw [h1]
  exact balanceSaveEvent_self saveStore uid et

/-- Witness for the amended C6 at the concrete snapshot pair (the
partition's last version is 0 at the read and 1 at the append). -/
theorem saveEvent_single_attempt_witness :
    (balanceSaveEvent evRead evSave 1 .transactionFailed
        = .error .concurrentModification) ∧
    (saveEventSpecSingleRetry evRead evSave 1 .transactionFailed
        = .ok (evSave ++
            [{ aggregateType := "balance", aggregateId := toString (1 : Int),
               eventType := .transactionFailed,
               version := getLastVersion evSave "balance"
                 (toString (1 : Int)) + 1 }])) :=
  saveEvent_single_attempt evRead evSave 1 .transactionFailed (by decide)

/-! ## C8 — failure in half-open reopens only when readyToTrip holds -/

lemma toNewGeneration_state (cb : CB) (now : Int) :
    (toNewGeneration cb now).state = cb.state := by
  rcases cb with ⟨mr, i, t, rtt, s, g, c, e⟩
  cases s <;> simp only [toNewGeneration]
  split <;> rfl

/-- A sequence of failed calls through the breaker at the given
instants. -/
def cbRun (nows : List Int) (cb : CB) : CB :=
  nows.foldl failedCall cb

/-- Counterexample to C8 with the default settings (`readyToTrip =
consecutive failures > 5`, timeout 60): after six failures at t=1 the
breaker is open; at t=100 the probe is admitted in half-open; that probe
completes unsuccessfully — and the breaker REMAINS half-open (its single
failure does not satisfy the default readyToTrip), instead of
transitioning back to open as the claim states. -/
theorem cb_halfOpen_failure_counterexample :
    ((cbRun (List.replicate 6 1) (newDefaultCB 0)).state = CBState.open) ∧
    ((beforeRequest (cbRun (List.replicate 6 1) (newDefaultCB 0)) 100).1.state
        = CBState.halfOpen) ∧
    ((cbRun (List.replicate 6 1 ++ [100]) (newDefaultCB 0)).state
        = CBState.halfOpen) :=
  ⟨rfl, rfl, rfl⟩

/-- C8 as the code has it: when a request that was admitted in the
half-open state (same generation) completes unsuccessfully, the breaker
transitions to open IF AND ONLY IF `readyToTrip` holds of the counts
after recording the failure — `onFailure` (part_019:202-208) does not
branch on the state — and otherwise stays half-open.  With the default
`readyToTrip` a single half-open failure leaves the breaker
half-open. -/
theorem cb_halfOpen_failure (cb : CB) (now : Int)
    (h : cb.state = .halfOpen) :
    (afterRequest cb now cb.generation false).state
      = (if cb.readyToTrip (countsOnFailure cb.counts) then CBState.open
         else CBState.halfOpen) := by
  simp only [afterRequest, currentState, h, bne_self_eq_false,
    Bool.false_eq_true, if_false, cbOnFailure]
  split
  · simp [setState, h, toNewGeneration_state]
  · rfl

/-- A breaker sitting in half-open with its one probe admitted, default
trip predicate. -/
def cbHalfOpenProbe : CB :=
  { maxRequests := 1, interval := 60, timeout := 60,
    readyToTrip := defaultReadyToTrip, state := .halfOpen, generation := 3,
    counts := countsOnRequest countsClear, expiry := none }

/-- Witness for the amended C8: the probe's failure leaves the breaker
half-open under the default readyToTrip. -/
theorem cb_halfOpen_failure_witness :
    (cbHalfOpenProbe.state = CBState.halfOpen) ∧
    ((afterRequest cbHalfOpenProbe 100 cbHalfOpenProbe.generation false).state
      = (if cbHalfOpenProbe.readyToTrip (countsOnFailure cbHalfOpenProbe.counts)
         then CBState.open else CBState.halfOpen)) ∧
    ((afterRequest cbHalfOpenProbe 100 cbHalfOpenProbe.generation false).state
      = CBState.halfOpen) :=
  ⟨rfl, cb_halfOpen_failure cbHalfOpenProbe 100 rfl, by rfl⟩

/-! ## C9 — worker pool stats accounting -/

/-- The balance equation that actually holds of the pool counters:
rejected submissions appear in `rejected` only. -/
def wpBalanced (s : WpState) : Prop :=
  s.submitted = s.completed + s.failed + s.queueLength + s.inFlight

lemma wpStep_preserves (s : WpState) (a : WpAction)
    (h : wpBalanced s) : wpBalanced (wpStep s a) := by
  unfold wpBalanced at h ⊢
  cases a <;> simp only [wpStep] <;> split <;> (try simp) <;> omega

lemma wpExec_balanced (capacity : Nat) (as : List WpAction) :
    wpBalanced (wpExec capacity as) := by
  have hgen : ∀ (l : List WpAction) (s : WpState),
      wpBalanced s → wpBalanced (l.foldl wpStep s) := by
    intro l
    induction l with
    | nil => intro s hs; exact hs
    | cons a l ih => intro s hs; exact ih _ (wpStep_preserves s a hs)
  exact hgen as (wpInit capacity) (by simp [wpInit, wpBalanced])

/-- Counterexample to C9: from a fresh pool of capacity 1, one accepted
submission followed by one rejected submission gives submitted = 1,
rejected = 1, queue_length = 1 — and the claimed equation
`submitted = completed + failed + rejected + queue_length + in_flight`
fails (1 ≠ 2): a rejected submission is counted in `rejected` but NOT in
`submitted` (part_017:100-106 runs only IncrementRejected). -/
theorem wp_rejected_not_in_submitted_counterexample :
    ((wpExec 1 [.submitOk, .submitFull]).submitted = 1) ∧
    ((wpExec 1 [.submitOk, .submitFull]).rejected = 1) ∧
    ¬ ((wpExec 1 [.submitOk, .submitFull]).submitted
        = (wpExec 1 [.submitOk, .submitFull]).completed
          + (wpExec 1 [.submitOk, .submitFull]).failed
          + (wpExec 1 [.submitOk, .submitFull]).rejected
          + (wpExec 1 [.submitOk, .submitFull]).queueLength
          + (wpExec 1 [.submitOk, .submitFull]).inFlight) :=
  ⟨rfl, rfl, by decide⟩

/-- C9 as the code has it: in every reachable state of the worker pool,
`submitted = completed + failed + queue_length + in_flight`; `rejected`
is a separate counter — rejected submissions are counted only there. -/
theorem wp_stats_accounting (s : WpState) (h : WpReachable s) :
    s.submitted = s.completed + s.failed + s.queueLength + s.inFlight := by
  obtain ⟨capacity, as, rfl⟩ := h
  exact wpExec_balanced capacity as

/-- Witness for the amended C9 at a concrete trace: accept, take,
complete, accept again, reject once. -/
theorem wp_stats_accounting_witness :
    (wpExec 1 [.submitOk, .take, .doneOk, .submitOk, .submitFull]).submitted
      = (wpExec 1 [.submitOk, .take, .doneOk, .submitOk,
          .submitFull]).completed
        + (wpExec 1 [.submitOk, .take, .doneOk, .submitOk,
            .submitFull]).failed
        + (wpExec 1 [.submitOk, .take, .doneOk, .submitOk,
            .submitFull]).queueLength
        + (wpExec 1 [.submitOk, .take, .doneOk, .submitOk,
            .submitFull]).inFlight :=
  wp_stats_accounting _ ⟨1, [.submitOk, .take, .doneOk, .submitOk,
    .submitFull], rfl⟩

/-! ## C7 — concurrent deposits can lose an update -/

/-- C7 fails on the code: the deposit path holds no lock across its read
and write (each repository call locks separately), so the interleaving
read₁ read₂ write₁ write₂ of two deposits of 10 on a balance of 0 ends
with BOTH threads finished and the stored amount 10 — the first write is
lost — whereas the serialized interleaving yields 20.  The claimed
convergence to `b + d1 + d2` under EVERY interleaving is false. -/
theorem concurrent_deposits_lost_update :
    (twoDeposits 1 0 10 10 [true, false, true, false]
      = ([{ userId := 1, amount := 10 }], .finished, .finished)) ∧
    (twoDeposits 1 0 10 10 [true, true, false, false]
      = ([{ userId := 1, amount := 20 }], .finished, .finished)) ∧
    ¬ ((twoDeposits 1 0 10 10 [true, false, true, false]).1
        = [{ userId := 1, amount := 0 + 10 + 10 }]) :=
  ⟨rfl, rfl, by decide⟩

/-! ## C10 — DepositFunds never initializes the worker pool -/

/-- C10: on a freshly constructed TransactionService — where the worker
pool is nil because no pool-initializing operation has run —
`DepositFunds` reaches `s.workerPool.Submit` with a nil pool and panics
(it neither returns the overloaded rejection nor any error value), for
every user and amount; `WithdrawFunds` and `TransferFunds` call
`ensureWorkerPoolInitialized` first and can never reach the submit step
with a nil pool. -/
theorem depositFunds_nil_pool (balances : BalanceDB) (uid f t : Int)
    (a : Amount) :
    ((DepositFunds (newTransactionService balances) uid a).1
        = GoResult.panicked) ∧
    ((WithdrawFunds (newTransactionService balances) uid a).1
        ≠ GoResult.panicked) ∧
    ((TransferFunds (newTransactionService balances) f t a).1
        ≠ GoResult.panicked) := by
  have hens : ensureWorkerPoolInitialized (newTransactionService balances)
      = { svc := { kernel := { balances := balances, history := [],
                               audit := [], events := [] }, calls := [] },
          txs := [], nextTxId := 1,
          pool := some { started := true, queue := [], capacity := 100 },
          initialized := true } := rfl
  refine ⟨rfl, ?_, ?_⟩
  · unfold WithdrawFunds
    rw [hens]
    simp only [repoCreateTx, poolSubmit]
    repeat' split
    all_goals simp_all
  · unfold TransferFunds
    rw [hens]
    simp only [repoCreateTx, poolSubmit, InitializeBalance]
    repeat' split
    all_goals simp_all

end Payflow
